import Mathlib

/-!
Shallow embedding of the adaptive performance-level controller of
`src/js/integration_manager.js` (class `XROptimizationManager`), restricted to
the state and operations the specification talks about: the current
performance level (a string, as in the source), the registered components
(only whether each one exposes `setQualityLevel`), the pending `setTimeout`
timers, and the event emitter.

Side effects (console warnings, `setQualityLevel` calls on components, the
global settings application, `emit` events) are captured as an explicit list
of `Effect` values returned next to the new state, in the order the source
performs them.
-/

namespace XRManager

/-- The kind of a pending `setTimeout` callback: the 5000 ms upgrade timer of
`handleGoodPerformance`, or the boost-reversion timer of
`boostPerformanceTemporarily`, which closes over the recorded original level. -/
inductive TimerKind where
  | upgrade : TimerKind
  | boostRevert (originalLevel : String) : TimerKind
deriving DecidableEq

/-- A pending timer: its kind and its absolute fire time in ms. -/
structure Timer where
  kind : TimerKind
  fireAt : Nat
deriving DecidableEq

/-- The controller state relevant to the specification: the source stores the
level as a string (`this.currentPerformanceLevel`), components are modelled by
whether each one is non-null and has `setQualityLevel`, and
`enableVoiceOptimization` is the option flag `recoverFromError` can clear. -/
structure Mgr where
  currentPerformanceLevel : String
  components : List Bool
  timers : List Timer
  now : Nat
  enableVoiceOptimization : Bool
deriving DecidableEq

/-- Observable side effects of the controller operations, in source order. -/
inductive Effect where
  | warnInvalid (level : String) : Effect
  | setQuality (idx : Nat) (level : String) : Effect
  | applyGlobal (level : String) : Effect
  | emitLevelChanged (level : String) : Effect
  | emitGlobalError : Effect
deriving DecidableEq

/-- The three valid levels, as listed in `setPerformanceLevel`:
`['high', 'medium', 'low'].includes(level)`. -/
def validLevels : List String := ["high", "medium", "low"]

/-- `['high','medium','low'].includes(level)`. -/
def isValidLevel (level : String) : Bool := validLevels.contains level

/-- The component-notification loop of `setPerformanceLevel`:
`Object.values(this.components).forEach(c => { if (c && c.setQualityLevel) c.setQualityLevel(level) })`,
with `i` the position of the first component in the iteration. -/
def notifyComponentsFrom (i : Nat) : List Bool → String → List Effect
  | [], _ => []
  | c :: cs, level =>
      (if c then [Effect.setQuality i level] else []) ++ notifyComponentsFrom (i + 1) cs level

/-- All `setQualityLevel` notifications of one `setPerformanceLevel` call. -/
def notifyComponents (comps : List Bool) (level : String) : List Effect :=
  notifyComponentsFrom 0 comps level

/-- `setPerformanceLevel(level)`: if the level is not one of the three valid
strings, warn and return without touching any state; otherwise assign
`currentPerformanceLevel`, notify every component that has `setQualityLevel`,
apply the global settings, and emit `performanceLevelChanged`. The source has
no check that `level` differs from the current level, and it never touches the
pending timers. -/
def setPerformanceLevel (st : Mgr) (level : String) : Mgr × List Effect :=
  if isValidLevel level then
    ({ st with currentPerformanceLevel := level },
      notifyComponents st.components level
        ++ [Effect.applyGlobal level, Effect.emitLevelChanged level])
  else
    (st, [Effect.warnInvalid level])

/-- `handleLowPerformance(stats)`: if the current level is not `'low'`, step to
`'medium'` when at `'high'` and to `'low'` otherwise. -/
def handleLowPerformance (st : Mgr) : Mgr × List Effect :=
  if st.currentPerformanceLevel ≠ "low" then
    setPerformanceLevel st (if st.currentPerformanceLevel = "high" then "medium" else "low")
  else
    (st, [])

/-- `handleGoodPerformance(stats)`: unconditionally schedules a `setTimeout`
for 5000 ms; the source stores no handle and never calls `clearTimeout`. -/
def handleGoodPerformance (st : Mgr) : Mgr × List Effect :=
  ({ st with timers := st.timers ++ [⟨TimerKind.upgrade, st.now + 5000⟩] }, [])

/-- The body of the `setTimeout` callback of `handleGoodPerformance`: when it
fires, if the level is then not `'high'`, step up one tier from the level
current at fire time. -/
def runUpgradeCallback (st : Mgr) : Mgr × List Effect :=
  if st.currentPerformanceLevel ≠ "high" then
    setPerformanceLevel st (if st.currentPerformanceLevel = "low" then "medium" else "high")
  else
    (st, [])

/-- `boostPerformanceTemporarily(duration)`: record the current level; if it is
not `'high'`, force `'high'` and schedule a `setTimeout` that will call
`setPerformanceLevel(originalLevel)` after `duration` ms. No handle is stored
and nothing ever cancels the timer. -/
def boostPerformanceTemporarily (st : Mgr) (duration : Nat) : Mgr × List Effect :=
  let originalLevel := st.currentPerformanceLevel
  if originalLevel ≠ "high" then
    let r := setPerformanceLevel st "high"
    ({ r.1 with timers := r.1.timers ++ [⟨TimerKind.boostRevert originalLevel, st.now + duration⟩] },
      r.2)
  else
    (st, [])

/-- Run the callback of a fired timer. The boost-reversion callback is the
unconditional `this.setPerformanceLevel(originalLevel)` of the source. -/
def runTimerCallback (k : TimerKind) (st : Mgr) : Mgr × List Effect :=
  match k with
  | TimerKind.upgrade => runUpgradeCallback st
  | TimerKind.boostRevert originalLevel => setPerformanceLevel st originalLevel

/-- Fire the first pending timer: remove it from the queue, advance the clock
to its fire time, and run its callback. -/
def fireFirstTimer (st : Mgr) : Mgr × List Effect :=
  match st.timers with
  | [] => (st, [])
  | t :: rest => runTimerCallback t.kind { st with timers := rest, now := t.fireAt }

/-- `(s.splitOn pat).length != 1` holds exactly when `pat` occurs in `s`:
the shallow embedding of JavaScript `s.includes(pat)` for nonempty `pat`. -/
def strContains (s pat : String) : Bool := (s.splitOn pat).length != 1

/-- The GPU check of `detectOptimalPerformanceLevel`:
`renderer.includes('GeForce') || renderer.includes('Radeon') || renderer.includes('Intel Iris')`. -/
def gpuRecognized (renderer : String) : Bool :=
  strContains renderer "GeForce" || strContains renderer "Radeon" ||
    strContains renderer "Intel Iris"

/-- The score accumulation of `detectOptimalPerformanceLevel`: memory tier
(thresholds `>= 8`, `>= 4`), cpu tier (thresholds `>= 8`, `>= 4`), gpu tier
(2 when the renderer string is recognized, else 1). Memory is in GB and may be
fractional (`navigator.deviceMemory`), hence a rational. -/
def computePerformanceScore (memory : ℚ) (cores : Nat) (renderer : String) : Nat :=
  (if memory ≥ 8 then 3 else if memory ≥ 4 then 2 else 1)
    + (if cores ≥ 8 then 3 else if cores ≥ 4 then 2 else 1)
    + (if gpuRecognized renderer then 2 else 1)

/-- The final level selection of `detectOptimalPerformanceLevel`:
`let level = 'medium'; if (score >= 7) level = 'high'; else if (score <= 4) level = 'low';`. -/
def detectLevelFromScore (score : Nat) : String :=
  if score ≥ 7 then "high" else if score ≤ 4 then "low" else "medium"

/-- A WebGL context, reduced to the only datum the source reads from it:
`gl.getParameter(gl.RENDERER)`. -/
structure GLContext where
  renderer : String

/-- The environment probed by `detectOptimalPerformanceLevel`: an optional
WebGL context, `navigator.deviceMemory` (absent on some browsers) and
`navigator.hardwareConcurrency`. -/
structure DeviceProbe where
  gl : Option GLContext
  deviceMemory : Option ℚ
  hardwareConcurrency : Option Nat

/-- `detectOptimalPerformanceLevel()`: when no WebGL context can be created,
set the level to `'low'` and return; otherwise score the device (memory and
cores default to 4 when the navigator does not report them) and set the
resulting level. -/
def detectOptimalPerformanceLevel (probe : DeviceProbe) (st : Mgr) : Mgr × List Effect :=
  match probe.gl with
  | none => setPerformanceLevel st "low"
  | some gl =>
      let memory := probe.deviceMemory.getD 4
      let cores := probe.hardwareConcurrency.getD 4
      setPerformanceLevel st
        (detectLevelFromScore (computePerformanceScore memory cores gl.renderer))

/-- `recoverFromError(error)`: disable voice optimization when the message
mentions voice or audio; then, if the current level is `'high'`, drop to
`'medium'` as a safety measure. -/
def recoverFromError (st : Mgr) (errMsg : String) : Mgr × List Effect :=
  let st1 :=
    if strContains errMsg "voice" || strContains errMsg "audio" then
      { st with enableVoiceOptimization := false }
    else st
  if st1.currentPerformanceLevel = "high" then
    setPerformanceLevel st1 "medium"
  else
    (st1, [])

/-- `handleGlobalError(event)`: emit `globalError`, then attempt recovery. -/
def handleGlobalError (st : Mgr) (errMsg : String) : Mgr × List Effect :=
  let r := recoverFromError st errMsg
  (r.1, Effect.emitGlobalError :: r.2)

/-- Per-listener outcome of one `emit` dispatch: the listener ran to
completion, or it threw and the exception was caught by the per-listener
`try`/`catch`. -/
inductive ListenerOutcome where
  | completed : ListenerOutcome
  | errorCaught (msg : String) : ListenerOutcome
deriving DecidableEq

/-- The `forEach` loop of `emit`: each callback is invoked on the data; a
callback that throws (models as `Except.error`) has its exception caught and
logged, and iteration continues with the next callback. -/
def runEmit {α : Type} (callbacks : List (α → Except String Unit)) (data : α) :
    List ListenerOutcome :=
  callbacks.map (fun cb =>
    match cb data with
    | Except.ok _ => ListenerOutcome.completed
    | Except.error msg => ListenerOutcome.errorCaught msg)

/-- `emit(event, data)`: look the event name up in the listeners map
(`this.listeners.has(event)`); when absent do nothing, otherwise dispatch to
the registered callback list in registration order. -/
def emit {α : Type} (listeners : List (String × List (α → Except String Unit)))
    (event : String) (data : α) : List ListenerOutcome :=
  match listeners.lookup event with
  | none => []
  | some cbs => runEmit cbs data

/-- Recognize a `performanceLevelChanged` emission among the effects. -/
def isLevelChangedEmit (e : Effect) : Bool :=
  match e with
  | Effect.emitLevelChanged _ => true
  | _ => false

/-- Recognize a `setQualityLevel` collaborator notification among the effects. -/
def isSetQualityEffect (e : Effect) : Bool :=
  match e with
  | Effect.setQuality _ _ => true
  | _ => false

/-- Recognize a pending upgrade timer. -/
def isUpgradeTimer (t : Timer) : Bool :=
  match t.kind with
  | TimerKind.upgrade => true
  | _ => false

/-- A controller at level high with one quality-adjustable component. -/
def mgrHigh : Mgr :=
  { currentPerformanceLevel := "high", components := [true], timers := [], now := 0,
    enableVoiceOptimization := true }

/-- A controller at level medium with one quality-adjustable component. -/
def mgrMedium : Mgr :=
  { currentPerformanceLevel := "medium", components := [true], timers := [], now := 0,
    enableVoiceOptimization := true }

/-- A controller at level low with one quality-adjustable component. -/
def mgrLow : Mgr :=
  { currentPerformanceLevel := "low", components := [true], timers := [], now := 0,
    enableVoiceOptimization := true }

/-- Trace for the debounce scenario: `reportGoodPerformance` from medium. -/
def goodLowTrace1 : Mgr := (handleGoodPerformance mgrMedium).1

/-- Then `reportLowPerformance` inside the 5000 ms window. -/
def goodLowTrace2 : Mgr := (handleLowPerformance goodLowTrace1).1

/-- Then the scheduled timer fires at 5000 ms. -/
def goodLowTrace3 : Mgr := (fireFirstTimer goodLowTrace2).1

/-- Trace for the boost scenario: `boostPerformanceTemporarily(1000)` from low. -/
def boostTrace1 : Mgr := (boostPerformanceTemporarily mgrLow 1000).1

/-- Then a deliberate `setPerformanceLevel('medium')` before 1000 ms elapse. -/
def boostTrace2 : Mgr := (setPerformanceLevel boostTrace1 "medium").1

/-- Then the scheduled reversion timer fires at 1000 ms. -/
def boostTrace3 : Mgr := (fireFirstTimer boostTrace2).1

/-- Two `reportGoodPerformance` calls in a row from medium. -/
def twoGoodReports : Mgr := (handleGoodPerformance (handleGoodPerformance mgrMedium).1).1

/-- A probe on which `canvas.getContext` returned no WebGL context at all. -/
def noGLProbe : DeviceProbe :=
  { gl := none, deviceMemory := none, hardwareConcurrency := none }

/-- An event listener that runs to completion. -/
def okListener : Nat → Except String Unit := fun _ => Except.ok ()

/-- An event listener that throws. -/
def badListener : Nat → Except String Unit := fun _ => Except.error "boom"

/-- A listeners map with one event and a throwing listener in the middle. -/
def demoListeners : List (String × List (Nat → Except String Unit)) :=
  [("performanceLevelChanged", [okListener, badListener, okListener])]

/-! ## The specification-side classifier for claim C1 -/

/-- Score as the specification words it: memory tier is 1 below 4 GB, 2 from
4 GB up to below 8 GB, 3 from 8 GB; cpu tier likewise at 4 and 8 cores; gpu
tier is 2 for a recognized discrete/high GPU and 1 otherwise. -/
def specScore (memoryGB : ℚ) (cpuCores : Nat) (gpuHigh : Bool) : Nat :=
  (if memoryGB < 4 then 1 else if memoryGB < 8 then 2 else 3)
    + (if cpuCores < 4 then 1 else if cpuCores < 8 then 2 else 3)
    + (if gpuHigh then 2 else 1)

/-- The classifier as the specification words it: high when the score is at
least 7, low when it is at most 4, medium otherwise. -/
def classifyDevice_specModel (memoryGB : ℚ) (cpuCores : Nat) (gpuHigh : Bool) : String :=
  if specScore memoryGB cpuCores gpuHigh ≥ 7 then "high"
  else if specScore memoryGB cpuCores gpuHigh ≤ 4 then "low"
  else "medium"

theorem score_eq_specScore (memory : ℚ) (cores : Nat) (renderer : String) :
    computePerformanceScore memory cores renderer
      = specScore memory cores (gpuRecognized renderer) := by
  unfold computePerformanceScore specScore
  have hmem : (if memory ≥ 8 then (3 : Nat) else if memory ≥ 4 then 2 else 1)
      = (if memory < 4 then 1 else if memory < 8 then 2 else 3) := by
    split_ifs <;> first | rfl | linarith
  have hcpu : (if cores ≥ 8 then (3 : Nat) else if cores ≥ 4 then 2 else 1)
      = (if cores < 4 then 1 else if cores < 8 then 2 else 3) := by
    split_ifs <;> first | rfl | omega
  rw [hmem, hcpu]

theorem detectLevelFromScore_total (score : Nat) :
    detectLevelFromScore score ∈ validLevels := by
  unfold detectLevelFromScore validLevels
  split_ifs <;> simp

/-- C1: the device classification is total and deterministic; it scores
memory (1 point below 4 GB, 2 from 4 to below 8, 3 from 8), cpu (1 below 4
cores, 2 from 4 to below 8, 3 from 8) and gpu (2 when recognized, else 1),
and returns high when the score is at least 7, low when at most 4, and
medium otherwise; the result is always one of the three levels. -/
theorem classifyDevice_correct (memory : ℚ) (cores : Nat) (renderer : String) :
    detectLevelFromScore (computePerformanceScore memory cores renderer)
        = classifyDevice_specModel memory cores (gpuRecognized renderer)
      ∧ detectLevelFromScore (computePerformanceScore memory cores renderer) ∈ validLevels := by
  refine ⟨?_, detectLevelFromScore_total _⟩
  unfold detectLevelFromScore classifyDevice_specModel
  rw [score_eq_specScore]

theorem notifyComponentsFrom_counts (comps : List Bool) : ∀ (i : Nat) (level : String),
    (notifyComponentsFrom i comps level).countP isSetQualityEffect
        = comps.countP (fun b => b)
      ∧ (notifyComponentsFrom i comps level).countP isLevelChangedEmit = 0 := by
  induction comps with
  | nil => intro i level; simp [notifyComponentsFrom]
  | cons c cs ih =>
      intro i level
      have h := ih (i + 1) level
      cases c <;>
        simp [notifyComponentsFrom, List.countP_cons, List.countP_append, h.1, h.2,
          isSetQualityEffect, isLevelChangedEmit]

/-- C2: calling `setPerformanceLevel` with a value outside the three enum
strings is rejected locally (the source warns and returns early, the shallow
embedding of the `InvalidLevelError` rejection): the state — current level,
components, timers, voice flag — is exactly unchanged, no component receives
`setQualityLevel`, and no `performanceLevelChanged` event is emitted. -/
theorem setPerformanceLevel_invalid_rejected (st : Mgr) (level : String)
    (h : isValidLevel level = false) :
    setPerformanceLevel st level = (st, [Effect.warnInvalid level]) := by
  simp [setPerformanceLevel, h]

theorem setPerformanceLevel_invalid_rejected_witness :
    setPerformanceLevel mgrHigh "ultra" = (mgrHigh, [Effect.warnInvalid "ultra"]) :=
  setPerformanceLevel_invalid_rejected mgrHigh "ultra" (by decide)

/-- C3 counterexample: from a controller already at high, the first
`setPerformanceLevel('high')` call — whose argument equals the current
level — still emits one `performanceLevelChanged` and one collaborator
notification (the claim says an equal-level call performs none), and two
calls in a row emit two, not one. -/
theorem setLevel_twice_two_rounds_cex :
    (setPerformanceLevel mgrHigh "high").2.countP isLevelChangedEmit = 1
      ∧ (setPerformanceLevel mgrHigh "high").2.countP isSetQualityEffect = 1
      ∧ ((setPerformanceLevel mgrHigh "high").2
          ++ (setPerformanceLevel (setPerformanceLevel mgrHigh "high").1 "high").2).countP
            isLevelChangedEmit = 2 := by
  refine ⟨rfl, rfl, rfl⟩

/-- C3 amended: `setPerformanceLevel` never compares the argument with the
current level; every call with a valid level performs one full notification
round — exactly one `performanceLevelChanged` emission and one
`setQualityLevel` call per eligible component — even when the level is
unchanged, so two calls in a row produce two rounds. -/
theorem setPerformanceLevel_always_full_round (st : Mgr) (level : String)
    (h : isValidLevel level = true) :
    (setPerformanceLevel st level).2.countP isLevelChangedEmit = 1
      ∧ (setPerformanceLevel st level).2.countP isSetQualityEffect
          = st.components.countP (fun b => b)
      ∧ (setPerformanceLevel st level).1.currentPerformanceLevel = level := by
  have hc := notifyComponentsFrom_counts st.components 0 level
  simp [setPerformanceLevel, h, notifyComponents, List.countP_append, List.countP_cons,
    hc.1, hc.2, isLevelChangedEmit, isSetQualityEffect]

theorem setPerformanceLevel_always_full_round_witness :
    (setPerformanceLevel mgrHigh "medium").2.countP isLevelChangedEmit = 1
      ∧ (setPerformanceLevel mgrHigh "medium").2.countP isSetQualityEffect
          = mgrHigh.components.countP (fun b => b)
      ∧ (setPerformanceLevel mgrHigh "medium").1.currentPerformanceLevel = "medium" :=
  setPerformanceLevel_always_full_round mgrHigh "medium" (by decide)

/-- C4: one `handleLowPerformance` call steps down exactly one tier: high
becomes exactly medium (never low), medium becomes low, and at low the call
changes nothing and produces no effects. -/
theorem handleLowPerformance_one_tier (st : Mgr) :
    (st.currentPerformanceLevel = "high" →
        (handleLowPerformance st).1.currentPerformanceLevel = "medium")
      ∧ (st.currentPerformanceLevel = "medium" →
        (handleLowPerformance st).1.currentPerformanceLevel = "low")
      ∧ (st.currentPerformanceLevel = "low" → handleLowPerformance st = (st, [])) := by
  refine ⟨?_, ?_, ?_⟩ <;> intro h <;>
    simp [handleLowPerformance, h, setPerformanceLevel, isValidLevel, validLevels]

theorem handleLowPerformance_one_tier_witness :
    (handleLowPerformance mgrHigh).1.currentPerformanceLevel = "medium"
      ∧ (handleLowPerformance mgrMedium).1.currentPerformanceLevel = "low"
      ∧ handleLowPerformance mgrLow = (mgrLow, []) :=
  ⟨(handleLowPerformance_one_tier mgrHigh).1 rfl,
   (handleLowPerformance_one_tier mgrMedium).2.1 rfl,
   (handleLowPerformance_one_tier mgrLow).2.2 rfl⟩

/-- C5 counterexample: from medium, `handleGoodPerformance` schedules the
5000 ms timer; an intervening `handleLowPerformance` drops the level to low
but leaves the timer pending (nothing cancels it); when the timer fires, the
upgrade is applied after all and the level rises back to medium — the claim
says the pending upgrade is cancelled and never applied. -/
theorem goodThenLow_upgrade_applies_cex :
    goodLowTrace2.currentPerformanceLevel = "low"
      ∧ goodLowTrace2.timers = [⟨TimerKind.upgrade, 5000⟩]
      ∧ goodLowTrace3.currentPerformanceLevel = "medium"
      ∧ ¬ goodLowTrace3.currentPerformanceLevel = "low" := by
  refine ⟨rfl, rfl, rfl, by decide⟩

/-- C5 amended: `handleLowPerformance` does not cancel the pending upgrade
timer (the timer queue is untouched); when the 5000 ms timeout fires, its
callback steps the then-current level up one tier — low to medium, medium to
high — and only does nothing when the level is already high. -/
theorem upgradeTimer_not_cancelled (st : Mgr) :
    (handleLowPerformance st).1.timers = st.timers
      ∧ (st.currentPerformanceLevel = "low" →
          (runUpgradeCallback st).1.currentPerformanceLevel = "medium")
      ∧ (st.currentPerformanceLevel = "medium" →
          (runUpgradeCallback st).1.currentPerformanceLevel = "high")
      ∧ (st.currentPerformanceLevel = "high" → runUpgradeCallback st = (st, [])) := by
  refine ⟨?_, ?_, ?_, ?_⟩
  · unfold handleLowPerformance setPerformanceLevel
    split_ifs <;> rfl
  all_goals intro h
  all_goals simp [runUpgradeCallback, h, setPerformanceLevel, isValidLevel, validLevels]

theorem upgradeTimer_not_cancelled_witness :
    (handleLowPerformance mgrLow).1.timers = mgrLow.timers
      ∧ (runUpgradeCallback mgrLow).1.currentPerformanceLevel = "medium" :=
  ⟨(upgradeTimer_not_cancelled mgrLow).1, (upgradeTimer_not_cancelled mgrLow).2.1 rfl⟩

/-- C6 counterexample: from low, `boostPerformanceTemporarily(1000)` forces
high and schedules reversion to low; a deliberate `setPerformanceLevel('medium')`
before the 1000 ms elapse does not invalidate the timer, and when it fires the
level silently reverts to low instead of staying at medium — the claim says
the reversion is skipped and the level is still medium. -/
theorem boost_reverts_over_setLevel_cex :
    boostTrace1.currentPerformanceLevel = "high"
      ∧ boostTrace2.currentPerformanceLevel = "medium"
      ∧ boostTrace3.currentPerformanceLevel = "low"
      ∧ ¬ boostTrace3.currentPerformanceLevel = "medium" := by
  refine ⟨rfl, rfl, rfl, by decide⟩

/-- C6 amended: an intervening `setPerformanceLevel` leaves the boost
reversion timer pending, and when that timer fires its callback
unconditionally sets the level back to the recorded original level,
overwriting the deliberate change. -/
theorem boostRevert_overrides_setLevel (st : Mgr) (lvl orig : String)
    (h : isValidLevel orig = true) :
    (setPerformanceLevel st lvl).1.timers = st.timers
      ∧ (runTimerCallback (TimerKind.boostRevert orig)
          (setPerformanceLevel st lvl).1).1.currentPerformanceLevel = orig := by
  constructor
  · unfold setPerformanceLevel
    split_ifs <;> rfl
  · simp [runTimerCallback, setPerformanceLevel, h]

theorem boostRevert_overrides_setLevel_witness :
    (setPerformanceLevel mgrHigh "medium").1.timers = mgrHigh.timers
      ∧ (runTimerCallback (TimerKind.boostRevert "low")
          (setPerformanceLevel mgrHigh "medium").1).1.currentPerformanceLevel = "low" :=
  boostRevert_overrides_setLevel mgrHigh "medium" "low" (by decide)

/-- C7 counterexample: two `handleGoodPerformance` calls in a row leave two
pending upgrade timers — the claim says at most one pending upgrade timer
exists because a new one cancels the prior. -/
theorem two_pending_upgrade_timers_cex :
    twoGoodReports.timers.countP isUpgradeTimer = 2
      ∧ ¬ twoGoodReports.timers.countP isUpgradeTimer ≤ 1 := by
  refine ⟨rfl, by decide⟩

/-- C7 amended: scheduling never cancels anything: `handleGoodPerformance`
appends a fresh upgrade timer to whatever is already pending, and
`boostPerformanceTemporarily` (from a non-high level) appends a fresh
boost-reversion timer, so pending timers of the same kind accumulate. -/
theorem schedule_appends_never_cancels (st : Mgr) (d : Nat)
    (h : st.currentPerformanceLevel ≠ "high") :
    (handleGoodPerformance st).1.timers
        = st.timers ++ [⟨TimerKind.upgrade, st.now + 5000⟩]
      ∧ (boostPerformanceTemporarily st d).1.timers
        = st.timers ++ [⟨TimerKind.boostRevert st.currentPerformanceLevel, st.now + d⟩] := by
  constructor
  · rfl
  · simp [boostPerformanceTemporarily, h, setPerformanceLevel, isValidLevel, validLevels]

theorem schedule_appends_never_cancels_witness :
    (handleGoodPerformance mgrMedium).1.timers
        = mgrMedium.timers ++ [⟨TimerKind.upgrade, mgrMedium.now + 5000⟩]
      ∧ (boostPerformanceTemporarily mgrMedium 1000).1.timers
        = mgrMedium.timers
            ++ [⟨TimerKind.boostRevert mgrMedium.currentPerformanceLevel,
                  mgrMedium.now + 1000⟩] :=
  schedule_appends_never_cancels mgrMedium 1000 (by decide)

/-- C8: when no WebGL context is available the detection does not error: it
behaves exactly as `setPerformanceLevel('low')`, so the resulting current
level is `'low'`, one of the three valid levels. -/
theorem detect_no_gl_defaults_low (probe : DeviceProbe) (st : Mgr)
    (h : probe.gl = none) :
    detectOptimalPerformanceLevel probe st = setPerformanceLevel st "low"
      ∧ (detectOptimalPerformanceLevel probe st).1.currentPerformanceLevel = "low"
      ∧ (detectOptimalPerformanceLevel probe st).1.currentPerformanceLevel ∈ validLevels := by
  have h1 : detectOptimalPerformanceLevel probe st = setPerformanceLevel st "low" := by
    unfold detectOptimalPerformanceLevel
    rw [h]
  refine ⟨h1, ?_, ?_⟩ <;>
    simp [h1, setPerformanceLevel, isValidLevel, validLevels]

theorem detect_no_gl_defaults_low_witness :
    detectOptimalPerformanceLevel noGLProbe mgrHigh = setPerformanceLevel mgrHigh "low"
      ∧ (detectOptimalPerformanceLevel noGLProbe mgrHigh).1.currentPerformanceLevel = "low"
      ∧ (detectOptimalPerformanceLevel noGLProbe mgrHigh).1.currentPerformanceLevel
          ∈ validLevels :=
  detect_no_gl_defaults_low noGLProbe mgrHigh rfl

/-- C9: `emit` dispatches to the registered listeners of the event in
registration order; a listener that throws has its exception caught
per-listener, and every listener before and after it is still invoked exactly
once, so the outcome list has one entry per listener. The dispatch reads the
controller state and mutates none of it. -/
theorem emit_exception_isolation {α : Type}
    (listeners : List (String × List (α → Except String Unit))) (event : String)
    (pre post : List (α → Except String Unit)) (bad : α → Except String Unit)
    (data : α) (msg : String)
    (hlook : listeners.lookup event = some (pre ++ bad :: post))
    (hbad : bad data = Except.error msg) :
    emit listeners event data
        = runEmit pre data ++ ListenerOutcome.errorCaught msg :: runEmit post data
      ∧ (emit listeners event data).length = pre.length + 1 + post.length := by
  unfold emit
  rw [hlook]
  constructor
  · simp [runEmit, hbad]
  · simp [runEmit]
    omega

theorem emit_exception_isolation_witness :
    emit demoListeners "performanceLevelChanged" 0
        = runEmit [okListener] 0
            ++ ListenerOutcome.errorCaught "boom" :: runEmit [okListener] 0
      ∧ (emit demoListeners "performanceLevelChanged" 0).length = 1 + 1 + 1 :=
  emit_exception_isolation demoListeners "performanceLevelChanged"
    [okListener] [okListener] badListener 0 "boom" rfl rfl

theorem recoverFromError_level (st : Mgr) (errMsg : String) :
    (recoverFromError st errMsg).1.currentPerformanceLevel
      = if st.currentPerformanceLevel = "high" then "medium"
        else st.currentPerformanceLevel := by
  unfold recoverFromError
  by_cases hv : (strContains errMsg "voice" || strContains errMsg "audio") = true <;>
    by_cases hl : st.currentPerformanceLevel = "high" <;>
      simp [hv, hl, setPerformanceLevel, isValidLevel, validLevels]

/-- C10: handling a global error changes the level only when the controller
is at high, in which case the recovery step lowers it to exactly medium; at
medium or low (or any other value) the level is left unchanged. -/
theorem handleGlobalError_level_drop (st : Mgr) (errMsg : String) :
    (handleGlobalError st errMsg).1.currentPerformanceLevel
      = if st.currentPerformanceLevel = "high" then "medium"
        else st.currentPerformanceLevel := by
  unfold handleGlobalError
  exact recoverFromError_level st errMsg

end XRManager
